import Mathlib

/-!
Shallow embedding of `lib/ansible/modules/crypto/openssl_csr.py`
(the `CertificateSigningRequest` class and the `present`/`absent` paths
of `main`), together with theorems settling the specification claims
about it.

Modelling conventions:
- Python `None`-able string parameters become `Option String`.
- The Python attribute `self.subjectAltName`, which over its lifetime can
  hold `None`, a (falsy, hence empty) string, or a list of strings, is the
  inductive `SanVal`.
- Uncaught Python exceptions (`StopIteration` from `next`, `TypeError`
  from `len(None)` and from joining `None`) are modelled by `Option.none`
  results of the embedded functions.
- File-system state for the single target path is `FileState`; the parsed
  content of an existing CSR file is `ExistingCsr` (subject components as
  an association list, extensions as `(short_name, string value)` pairs).
- The outcomes of the external crypto and OS collaborators (private-key
  loading, signing, the final file write, `os.remove`) are oracle
  parameters, since the embedding cannot perform real I/O.
-/

namespace OpensslCsr

/-- Module parameters after the argument-spec layer, one field per entry of
`module.params` used by the class.  Defaults mirror the argument spec. -/
structure Params where
  state : String := "present"
  digest : String := "sha256"
  force : Bool := false
  subjectAltName : Option String := Option.none
  path : String := "/etc/ssl/csr/test.csr"
  privatekey_path : String := "/etc/ssl/private/test.pem"
  version : Int := 3
  countryName : Option String := Option.none
  stateOrProvinceName : Option String := Option.none
  localityName : Option String := Option.none
  organizationName : Option String := Option.none
  organizationalUnitName : Option String := Option.none
  commonName : Option String := Option.none
  emailAddress : Option String := Option.none
deriving Repr, DecidableEq

/-- Python string interpolation `"%s" % x` for an optional string:
`None` prints as the literal string `"None"`. -/
def pyFormat : Option String → String
  | Option.none => "None"
  | some s => s

/-- Python `s.replace(" ", "")`: drop every space character. -/
def pyStripSpaces (s : String) : String :=
  String.mk (s.toList.filter (fun c => c ≠ ' '))

/-- Helper for `pySplitComma`: accumulate the current chunk (reversed). -/
def splitCommaAux : List Char → List Char → List String
  | [], acc => [String.mk acc.reverse]
  | c :: rest, acc =>
    if c = ',' then String.mk acc.reverse :: splitCommaAux rest []
    else splitCommaAux rest (c :: acc)

/-- Python `s.split(",")`: split on every comma; a string with `n` commas
yields `n + 1` chunks, so the empty string yields `[""]`. -/
def pySplitComma (s : String) : List String :=
  splitCommaAux s.toList []

/-- The value held by `self.subjectAltName` after `__init__`:
`noneV` when the parameter was `None`, `strV s` when the parameter was a
falsy (empty) string and was left untouched, `listV l` after the
replace/split/insert processing of a truthy string. -/
inductive SanVal where
  | noneV : SanVal
  | strV : String → SanVal
  | listV : List String → SanVal
deriving Repr, DecidableEq

/-- Python truthiness of `self.subjectAltName`. -/
def sanTruthy : SanVal → Bool
  | SanVal.noneV => false
  | SanVal.strV s => s ≠ ""
  | SanVal.listV l => l ≠ []

/-- Python `len(self.subjectAltName)`; `len(None)` raises `TypeError`,
modelled as `Option.none`. -/
def sanLen : SanVal → Option Nat
  | SanVal.noneV => Option.none
  | SanVal.strV s => some s.length
  | SanVal.listV l => some l.length

/-- The sequence produced by iterating `self.subjectAltName` with `for`:
iterating a string yields its characters as one-character strings. -/
def sanItems : SanVal → List String
  | SanVal.noneV => []
  | SanVal.strV s => s.toList.map (fun c => String.mk [c])
  | SanVal.listV l => l

/-- Python `",".join(self.subjectAltName)`; joining `None` raises
`TypeError`, modelled as `Option.none`. -/
def sanJoin : SanVal → Option String
  | SanVal.noneV => Option.none
  | SanVal.strV s => some (String.intercalate "," (s.toList.map (fun c => String.mk [c])))
  | SanVal.listV l => some (String.intercalate "," l)

/-- The `self.subject` dictionary as written on lines 192-200, before the
`None`-deleting loop: the fixed seven keys with their raw parameter
values. -/
def rawSubject (p : Params) : List (String × Option String) :=
  [("C", p.countryName),
   ("ST", p.stateOrProvinceName),
   ("L", p.localityName),
   ("O", p.organizationName),
   ("OU", p.organizationalUnitName),
   ("CN", p.commonName),
   ("emailAddress", p.emailAddress)]

/-- `self.subject` after the loop on lines 207-209 deleted every key whose
value is `None`.  Keys whose value is a (possibly empty) string remain. -/
def buildSubject (p : Params) : List (String × String) :=
  (rawSubject p).filterMap (fun kv => kv.2.map (fun v => (kv.1, v)))

/-- `self.subjectAltName` after `__init__` (lines 202-205): a `None`
parameter and a falsy (empty) string are left as they are; a truthy string
is space-stripped and comma-split, and `DNS:<CN>` (with the raw, possibly
`None`, commonName parameter interpolated) is inserted at position 0 when
not already a member. -/
def buildSan (p : Params) : SanVal :=
  match p.subjectAltName with
  | Option.none => SanVal.noneV
  | some s =>
    if s = "" then SanVal.strV s
    else
      if ("DNS:" ++ pyFormat p.commonName) ∈ pySplitComma (pyStripSpaces s) then
        SanVal.listV (pySplitComma (pyStripSpaces s))
      else
        SanVal.listV (("DNS:" ++ pyFormat p.commonName) :: pySplitComma (pyStripSpaces s))

/-- Parsed content of an existing CSR file: subject components and
extensions, each as `(name, string value)` pairs in file order. -/
structure ExistingCsr where
  components : List (String × String)
  extensions : List (String × String)
deriving Repr, DecidableEq

/-- State of the target path on disk. -/
inductive FileState where
  | absent : FileState
  | onDisk : ExistingCsr → FileState
deriving Repr, DecidableEq

/-- `os.path.exists(self.path)`. -/
def fileExists : FileState → Bool
  | FileState.absent => false
  | FileState.onDisk _ => true

/-- `dict(current_csr_subject.get_components())[k]` as an optional lookup:
building a Python dict from a pair list keeps the LAST occurrence of a
key, hence the reversed search. -/
def dictLookup (l : List (String × String)) (k : String) : Option String :=
  (l.reverse.find? (fun kv => kv.1 == k)).map (fun kv => kv.2)

/-- The subject loop of `check_diff` (lines 218-220): true when some
desired item has a key that is also among the current components with a
different value. -/
def subjectMismatch (subject comps : List (String × String)) : Bool :=
  subject.any (fun kv =>
    match dictLookup comps kv.1 with
    | some v => v != kv.2
    | Option.none => false)

/-- `next(extension for extension in extensions if short_name ==
"subjectAltName")` as an optional first-match lookup; `Option.none`
corresponds to the `StopIteration` the generator raises on no match. -/
def findSan (exts : List (String × String)) : Option String :=
  (exts.find? (fun e => e.1 == "subjectAltName")).map (fun e => e.2)

/-- `CertificateSigningRequest.check_diff` (lines 211-237).
`some b` is a normal return of `b`; `Option.none` is an uncaught exception
(`StopIteration` when extensions exist but none is a SAN extension,
`TypeError` when `len` is taken of a `None` subjectAltName). -/
def check_diff (p : Params) (subject : List (String × String)) (san : SanVal)
    (file : FileState) : Option Bool :=
  match file with
  | FileState.absent => some false
  | FileState.onDisk c =>
    if p.force then some false
    else if subjectMismatch subject c.components then some true
    else if c.extensions.isEmpty then some (sanTruthy san)
    else
      match findSan c.extensions with
      | Option.none => Option.none
      | some curSanStr =>
        match sanLen san with
        | Option.none => Option.none
        | some n =>
          if (pySplitComma (pyStripSpaces curSanStr)).length ≠ n then some true
          else if (sanItems san).any
              (fun a => !((pySplitComma (pyStripSpaces curSanStr)).contains a)) then
            some true
          else some false

/-- Outcome of loading the private key (external crypto collaborator). -/
inductive KeyLoad where
  | ok : KeyLoad
  | fail : KeyLoad
deriving Repr, DecidableEq

/-- Outcome of signing the request (external crypto collaborator). -/
inductive SignRes where
  | ok : SignRes
  | fail : SignRes
deriving Repr, DecidableEq

/-- Outcome of the final file write.  A failed write may leave the target
in an arbitrary state (`open(path, "w")` truncates before writing), which
the oracle supplies. -/
inductive WriteRes where
  | ok : WriteRes
  | fail : FileState → WriteRes
deriving Repr, DecidableEq

/-- Errors arising inside `generate`: `diffEngineCrash` is an uncaught
exception escaping `check_diff`; `keyLoadError` and `signError` are
uncaught pyOpenSSL errors; `writeError` is the `IOError`/`OSError` that is
re-raised as `CertificateSigningRequestError` (lines 266-268). -/
inductive GenError where
  | diffEngineCrash : GenError
  | keyLoadError : GenError
  | signError : GenError
  | writeError : GenError
deriving Repr, DecidableEq

/-- Result of `generate`: the target file afterwards, `self.changed`, and
the error if the method did not return normally. -/
structure GenResult where
  file : FileState
  changed : Bool
  error : Option GenError
deriving Repr, DecidableEq

/-- The regeneration condition on line 244:
`not os.path.exists(self.path) or self.force or diff_found`. -/
def regenCond (p : Params) (file : FileState) (diffFound : Bool) : Bool :=
  !(fileExists file) || p.force || diffFound

/-- The CSR written by the regeneration branch, as it would parse back:
each subject item is set on the request (lines 248-250), and when
`self.subjectAltName` is truthy a single subjectAltName extension holds
the comma-join of its entries (lines 252-253). -/
def mkCsr (subject : List (String × String)) (san : SanVal) : ExistingCsr :=
  { components := subject,
    extensions :=
      if sanTruthy san then [("subjectAltName", (sanJoin san).getD "")] else [] }

/-- `CertificateSigningRequest.generate` (lines 239-270): compute
`check_diff`, and when the line-244 condition holds build the request in
memory, load the key, sign, and only then write the file; otherwise set
`self.changed = False`.  (The `set_fs_attributes_if_different` collaborator
call on lines 272-274 is outside the embedding.) -/
def generate (p : Params) (subject : List (String × String)) (san : SanVal)
    (file : FileState) (key : KeyLoad) (sgn : SignRes) (wr : WriteRes) : GenResult :=
  match check_diff p subject san file with
  | Option.none => { file := file, changed := true, error := some GenError.diffEngineCrash }
  | some diffFound =>
    if regenCond p file diffFound then
      match key with
      | KeyLoad.fail => { file := file, changed := true, error := some GenError.keyLoadError }
      | KeyLoad.ok =>
        match sgn with
        | SignRes.fail => { file := file, changed := true, error := some GenError.signError }
        | SignRes.ok =>
          match wr with
          | WriteRes.fail damaged =>
            { file := damaged, changed := true, error := some GenError.writeError }
          | WriteRes.ok =>
            { file := FileState.onDisk (mkCsr subject san), changed := true,
              error := Option.none }
    else { file := file, changed := false, error := Option.none }

/-- Outcome of the `os.remove` system call: success, or failure with an
errno. -/
inductive RemoveOsResult where
  | ok : RemoveOsResult
  | errno : Nat → RemoveOsResult
deriving Repr, DecidableEq

/-- `errno.ENOENT`. -/
def ENOENT : Nat := 2

/-- Result of `remove`: the target file afterwards, `self.changed`, and
whether a `CertificateSigningRequestError` was raised. -/
structure RemoveResult where
  file : FileState
  changed : Bool
  raised : Bool
deriving Repr, DecidableEq

/-- `CertificateSigningRequest.remove` (lines 276-286): call `os.remove`;
on `OSError` with errno `ENOENT` set `self.changed = False`, on any other
errno re-raise as `CertificateSigningRequestError`. -/
def remove (file : FileState) (os : RemoveOsResult) : RemoveResult :=
  match os with
  | RemoveOsResult.ok => { file := FileState.absent, changed := true, raised := false }
  | RemoveOsResult.errno e =>
    if e = ENOENT then { file := file, changed := false, raised := false }
    else { file := file, changed := true, raised := true }

/-- The module result dictionary assembled by `dump` (lines 288-298). -/
structure DumpResult where
  csr : String
  subject : List (String × String)
  subjectAltName : String
  changed : Bool
deriving Repr, DecidableEq

/-- `CertificateSigningRequest.dump`: `Option.none` models the uncaught
`TypeError` from `",".join(None)` when no subjectAltName was supplied. -/
def dump (p : Params) (subject : List (String × String)) (san : SanVal)
    (changed : Bool) : Option DumpResult :=
  (sanJoin san).map (fun j =>
    { csr := p.path, subject := subject, subjectAltName := j, changed := changed })

/-- Observable outcome of one module run: a reported result plus the final
file state, or a failed/crashed run plus the final file state. -/
inductive RunOutcome where
  | success : DumpResult → FileState → RunOutcome
  | failure : FileState → RunOutcome
deriving Repr, DecidableEq

/-- The `state=present`, non-check-mode path of `main` (lines 340-361):
run `generate`, then assemble the result with `dump`.  Any error in
`generate` (caught and turned into `fail_json`, or uncaught) and the
`dump` crash both end the run without a reported result. -/
def mainPresent (p : Params) (file : FileState) (key : KeyLoad) (sgn : SignRes)
    (wr : WriteRes) : RunOutcome :=
  let subject := buildSubject p
  let san := buildSan p
  let g := generate p subject san file key sgn wr
  match g.error with
  | some _ => RunOutcome.failure g.file
  | Option.none =>
    match dump p subject san g.changed with
    | Option.none => RunOutcome.failure g.file
    | some r => RunOutcome.success r g.file

/-- The `state=present` check-mode branch of `main` (lines 334-338):
`result = csr.dump()` (with the initial `self.changed = True`), then
`result["changed"] = force or not os.path.exists(path) or diff_found`.
No generation and no write happens; the second component is the (unchanged)
file state the branch leaves behind. -/
def mainPresentCheckMode (p : Params) (file : FileState) :
    Option DumpResult × FileState :=
  let subject := buildSubject p
  let san := buildSan p
  match dump p subject san true with
  | Option.none => (Option.none, file)
  | some r =>
    match check_diff p subject san file with
    | Option.none => (Option.none, file)
    | some diffFound =>
      (some { r with changed := p.force || !(fileExists file) || diffFound }, file)

end OpensslCsr

namespace OpensslCsr

/-- Claim C1 (code bug at the claimed scenario): with only CommonName
declared (no subjectAltName) and no prior file, the Present-Requested path
does write a new CSR file, but result assembly then crashes: `dump` joins
the still-`None` subjectAltName attribute, raising `TypeError`, so the run
fails and never reports `changed`/`subjectAltName`.  The theorem evaluates
the embedded run at exactly the claimed scenario. -/
theorem c1_commonname_only_run_crashes :
    mainPresent { commonName := some "www.example.com" } FileState.absent
        KeyLoad.ok SignRes.ok WriteRes.ok
      = RunOutcome.failure
          (FileState.onDisk
            { components := [("CN", "www.example.com")], extensions := [] }) := by
  decide

/-- Claim C2, counterexample: an existing CSR whose extension set is
non-empty but contains no SAN extension makes the diff engine raise
`StopIteration` (modelled as `Option.none`) instead of returning a
boolean, refuting the never-fails part of the claim (and its promised
`false` answer for an empty desired SAN list). -/
theorem c2_counterexample :
    check_diff { commonName := some "a" }
        (buildSubject { commonName := some "a" })
        (buildSan { commonName := some "a" })
        (FileState.onDisk
          { components := [("CN", "a")],
            extensions := [("basicConstraints", "CA:FALSE")] })
      = Option.none := by
  decide

/-- Claim C2, amended: when the existing CSR has NO extensions at all (and
no subject mismatch fired, force off), the diff engine returns exactly the
truthiness of the desired subjectAltName value; but when extensions exist
and none of them is a SAN extension, the diff engine fails with an
uncaught `StopIteration` rather than returning a value. -/
theorem c2_no_san_extension (p : Params) (c : ExistingCsr)
    (hforce : p.force = false)
    (hsubj : subjectMismatch (buildSubject p) c.components = false) :
    (c.extensions = [] →
      check_diff p (buildSubject p) (buildSan p) (FileState.onDisk c)
        = some (sanTruthy (buildSan p)))
    ∧ (c.extensions ≠ [] → findSan c.extensions = Option.none →
      check_diff p (buildSubject p) (buildSan p) (FileState.onDisk c)
        = Option.none) := by
  constructor
  · intro hext
    simp [check_diff, hforce, hsubj, hext]
  · intro hext hsan
    simp [check_diff, hforce, hsubj, hsan, List.isEmpty_iff, hext]

/-- Witness for the C2 amended theorem at a concrete input: an existing
CSR with a matching subject and no extensions, desired SAN absent, yields
a normal `false` answer. -/
theorem c2_no_san_extension_witness :
    ({ commonName := some "a" } : Params).force = false
    ∧ check_diff { commonName := some "a" }
        (buildSubject { commonName := some "a" })
        (buildSan { commonName := some "a" })
        (FileState.onDisk { components := [("CN", "a")], extensions := [] })
      = some false := by
  refine ⟨rfl, ?_⟩
  have h := (c2_no_san_extension { commonName := some "a" }
      { components := [("CN", "a")], extensions := [] } rfl (by decide)).1 rfl
  have h2 : sanTruthy (buildSan { commonName := some "a" }) = false := by decide
  rw [h2] at h
  exact h

/-- Claim C3, counterexample: CommonName `b.example.com` with caller SAN
string `DNS:a.example.com,DNS:b.example.com` leaves the list unchanged, so
`DNS:<CommonName>` is NOT the first element, refuting the
first-element-even-when-already-present part of the claim. -/
theorem c3_counterexample :
    buildSan { commonName := some "b.example.com",
               subjectAltName := some "DNS:a.example.com,DNS:b.example.com" }
      = SanVal.listV ["DNS:a.example.com", "DNS:b.example.com"]
    ∧ (["DNS:a.example.com", "DNS:b.example.com"] : List String).head?
        ≠ some "DNS:b.example.com" := by
  decide

/-- Claim C3, amended: with CommonName set and non-empty and a truthy SAN
string, if `DNS:<CommonName>` is not already in the split list it is
prepended as the first element and then occurs exactly once; if it is
already present (at whatever position) the list is left unchanged. -/
theorem c3_cn_insertion (p : Params) (c s : String)
    (hcn : p.commonName = some c) (hcne : c ≠ "")
    (hs : p.subjectAltName = some s) (hne : s ≠ "") :
    (("DNS:" ++ c) ∉ pySplitComma (pyStripSpaces s) →
      buildSan p = SanVal.listV (("DNS:" ++ c) :: pySplitComma (pyStripSpaces s))
      ∧ (("DNS:" ++ c) :: pySplitComma (pyStripSpaces s)).count ("DNS:" ++ c) = 1)
    ∧ (("DNS:" ++ c) ∈ pySplitComma (pyStripSpaces s) →
      buildSan p = SanVal.listV (pySplitComma (pyStripSpaces s))) := by
  constructor
  · intro hnotin
    constructor
    · simp [buildSan, hs, hne, hcn, pyFormat, hnotin]
    · simp [List.count_cons_self, List.count_eq_zero_of_not_mem hnotin]
  · intro hin
    simp [buildSan, hs, hne, hcn, pyFormat, hin]

/-- Witness for the C3 amended theorem at a concrete input. -/
theorem c3_cn_insertion_witness :
    ("DNS:" ++ "b") ∉ pySplitComma (pyStripSpaces "DNS:a")
    ∧ buildSan { commonName := some "b", subjectAltName := some "DNS:a" }
        = SanVal.listV (("DNS:" ++ "b") :: pySplitComma (pyStripSpaces "DNS:a")) :=
  ⟨by decide,
   ((c3_cn_insertion { commonName := some "b", subjectAltName := some "DNS:a" }
      "b" "DNS:a" rfl (by decide) rfl (by decide)).1 (by decide)).1⟩

end OpensslCsr

namespace OpensslCsr

/-- Claim C4: the subject-comparison loop of the diff engine reports a
mismatch exactly when some item of the desired subject has a key that is
also among the existing components with a different value; hence a desired
field absent from the existing components never by itself yields true, and
fields absent from the desired subject are never compared. -/
theorem c4_subject_comparison (subject comps : List (String × String)) :
    subjectMismatch subject comps = true
      ↔ ∃ kv ∈ subject, ∃ v, dictLookup comps kv.1 = some v ∧ v ≠ kv.2 := by
  simp only [subjectMismatch, List.any_eq_true]
  constructor
  · rintro ⟨kv, hmem, hkv⟩
    refine ⟨kv, hmem, ?_⟩
    cases hlook : dictLookup comps kv.1 with
    | none => rw [hlook] at hkv; simp at hkv
    | some v =>
      rw [hlook] at hkv
      exact ⟨v, rfl, by simpa [bne_iff_ne] using hkv⟩
  · rintro ⟨kv, hmem, v, hlook, hne⟩
    refine ⟨kv, hmem, ?_⟩
    rw [hlook]
    simpa [bne_iff_ne] using hne

/-- Claim C5, counterexample: a commonName explicitly supplied as the
empty string is kept in the subject mapping as an empty-string value,
refuting the no-empty-values part of the claim. -/
theorem c5_counterexample :
    ("CN", "") ∈ buildSubject { commonName := some "",
                                subjectAltName := some "DNS:a" } := by
  decide

/-- Claim C5, amended: the built subject mapping contains exactly the
entries whose parameter value was supplied (non-`None`); absent values are
never stored, but a value supplied as the empty string is retained as an
empty string. -/
theorem c5_subject_entries (p : Params) (k v : String) :
    (k, v) ∈ buildSubject p ↔ (k, some v) ∈ rawSubject p := by
  simp only [buildSubject, List.mem_filterMap]
  constructor
  · rintro ⟨⟨k0, v0⟩, hmem, hf⟩
    cases v0 with
    | none => simp at hf
    | some v0 =>
      simp only [Option.map_some', Option.some.injEq, Prod.mk.injEq] at hf
      rcases hf with ⟨hk, hv⟩
      subst hk; subst hv
      exact hmem
  · intro hmem
    exact ⟨(k, some v), hmem, rfl⟩

/-- Claim C6: in check mode with state present, the branch leaves the file
untouched (it never calls the generator or writes), and the reported
`changed` flag — computed as `force or not exists or diff` — equals the
regeneration condition `not exists or force or diff` that the real
`generate` call evaluates on the same file-system state. -/
theorem c6_checkmode (p : Params) (file : FileState) (r : DumpResult) (d : Bool)
    (hr : (mainPresentCheckMode p file).1 = some r)
    (hd : check_diff p (buildSubject p) (buildSan p) file = some d) :
    (mainPresentCheckMode p file).2 = file ∧ r.changed = regenCond p file d := by
  refine ⟨?_, ?_⟩
  · simp only [mainPresentCheckMode]
    rcases dump p (buildSubject p) (buildSan p) true with _ | r0
    · rfl
    · rcases check_diff p (buildSubject p) (buildSan p) file with _ | d0
      · rfl
      · rfl
  · simp only [mainPresentCheckMode] at hr
    cases hdump : dump p (buildSubject p) (buildSan p) true with
    | none => rw [hdump] at hr; exact absurd hr (by simp)
    | some r0 =>
      rw [hdump, hd] at hr
      simp only [Option.some.injEq] at hr
      subst hr
      simp only [regenCond]
      cases p.force <;> cases fileExists file <;> cases d <;> rfl

/-- Witness for the C6 theorem at a concrete input: CommonName plus a SAN
string against a missing file reports changed = true, which equals the
regeneration condition. -/
theorem c6_checkmode_witness :
    (mainPresentCheckMode { commonName := some "a", subjectAltName := some "DNS:a" }
        FileState.absent).1
      = some { csr := "/etc/ssl/csr/test.csr", subject := [("CN", "a")],
               subjectAltName := "DNS:a", changed := true }
    ∧ ((mainPresentCheckMode { commonName := some "a", subjectAltName := some "DNS:a" }
          FileState.absent).2 = FileState.absent
        ∧ ({ csr := "/etc/ssl/csr/test.csr", subject := [("CN", "a")],
             subjectAltName := "DNS:a", changed := true } : DumpResult).changed
            = regenCond { commonName := some "a", subjectAltName := some "DNS:a" }
                FileState.absent false) :=
  ⟨by decide,
   c6_checkmode { commonName := some "a", subjectAltName := some "DNS:a" }
     FileState.absent _ false (by decide) (by decide)⟩

/-- Claim C7: when private-key loading or signing fails, `generate` leaves
the target file exactly as it was: the request is built, keyed and signed
fully in memory, and the output path is only opened for writing after a
successful signature. -/
theorem c7_fail_before_write (p : Params) (file : FileState) (key : KeyLoad)
    (sgn : SignRes) (wr : WriteRes)
    (h : key = KeyLoad.fail ∨ sgn = SignRes.fail) :
    (generate p (buildSubject p) (buildSan p) file key sgn wr).file = file := by
  simp only [generate]
  rcases check_diff p (buildSubject p) (buildSan p) file with _ | d
  · rfl
  · rcases h with h | h
    · subst h
      cases hc : regenCond p file d <;> simp [hc]
    · subst h
      cases key <;> cases hc : regenCond p file d <;> simp [hc]

/-- Witness for the C7 theorem at a concrete input: a failing key load
against a missing file leaves the path absent. -/
theorem c7_fail_before_write_witness :
    (KeyLoad.fail = KeyLoad.fail ∨ SignRes.ok = SignRes.fail)
    ∧ (generate { commonName := some "a" }
        (buildSubject { commonName := some "a" })
        (buildSan { commonName := some "a" })
        FileState.absent KeyLoad.fail SignRes.ok WriteRes.ok).file
      = FileState.absent :=
  ⟨Or.inl rfl,
   c7_fail_before_write { commonName := some "a" } FileState.absent
     KeyLoad.fail SignRes.ok WriteRes.ok (Or.inl rfl)⟩

end OpensslCsr

namespace OpensslCsr

/-- Claim C8: `remove` against a path for which `os.remove` reports ENOENT
(the path is absent, whether it never existed or vanished in a race)
finishes with `changed = false` and no error; successful deletion of an
existing path reports `changed = true`; and a deletion failure with any
errno other than ENOENT raises a `CertificateSigningRequestError`. -/
theorem c8_remove_semantics (file : FileState) (c : ExistingCsr) (e : Nat)
    (h : e ≠ ENOENT) :
    remove FileState.absent (RemoveOsResult.errno ENOENT)
        = { file := FileState.absent, changed := false, raised := false }
    ∧ remove (FileState.onDisk c) RemoveOsResult.ok
        = { file := FileState.absent, changed := true, raised := false }
    ∧ (remove file (RemoveOsResult.errno e)).raised = true := by
  refine ⟨rfl, rfl, ?_⟩
  simp [remove, h]

/-- Witness for the C8 theorem at a concrete input: errno 13 (EACCES) is
not ENOENT, and deleting it raises the error. -/
theorem c8_remove_semantics_witness :
    (13 ≠ ENOENT)
    ∧ (remove FileState.absent (RemoveOsResult.errno ENOENT)
          = { file := FileState.absent, changed := false, raised := false }
        ∧ remove (FileState.onDisk { components := [], extensions := [] })
              RemoveOsResult.ok
            = { file := FileState.absent, changed := true, raised := false }
        ∧ (remove (FileState.onDisk { components := [], extensions := [] })
              (RemoveOsResult.errno 13)).raised = true) :=
  ⟨by decide,
   c8_remove_semantics (FileState.onDisk { components := [], extensions := [] })
     { components := [], extensions := [] } 13 (by decide)⟩

/-- Claim C9: with `force = true`, `check_diff` returns `false` for every
file-system state without examining the existing content (the comparison
is short-circuited), and `generate` always takes the regeneration branch,
writing the freshly built CSR and reporting `changed = true`. -/
theorem c9_force_always_regenerates (p : Params) (file : FileState)
    (hf : p.force = true) :
    check_diff p (buildSubject p) (buildSan p) file = some false
    ∧ generate p (buildSubject p) (buildSan p) file KeyLoad.ok SignRes.ok WriteRes.ok
        = { file := FileState.onDisk (mkCsr (buildSubject p) (buildSan p)),
            changed := true, error := Option.none } := by
  have hcd : check_diff p (buildSubject p) (buildSan p) file = some false := by
    cases file with
    | absent => rfl
    | onDisk c => simp [check_diff, hf]
  refine ⟨hcd, ?_⟩
  simp [generate, hcd, regenCond, hf]

/-- Witness for the C9 theorem at a concrete input: force on, an on-disk
CSR identical to the desired one is regenerated anyway. -/
theorem c9_force_always_regenerates_witness :
    ({ commonName := some "a", force := true } : Params).force = true
    ∧ (check_diff { commonName := some "a", force := true }
          (buildSubject { commonName := some "a", force := true })
          (buildSan { commonName := some "a", force := true })
          (FileState.onDisk { components := [("CN", "a")], extensions := [] })
        = some false
      ∧ generate { commonName := some "a", force := true }
          (buildSubject { commonName := some "a", force := true })
          (buildSan { commonName := some "a", force := true })
          (FileState.onDisk { components := [("CN", "a")], extensions := [] })
          KeyLoad.ok SignRes.ok WriteRes.ok
        = { file := FileState.onDisk
              (mkCsr (buildSubject { commonName := some "a", force := true })
                (buildSan { commonName := some "a", force := true })),
            changed := true, error := Option.none }) :=
  ⟨rfl,
   c9_force_always_regenerates { commonName := some "a", force := true }
     (FileState.onDisk { components := [("CN", "a")], extensions := [] }) rfl⟩

/-- Claim C10: with a truthy SAN string and an absent CommonName, the
builder interpolates the Python `None` into the membership test and the
insertion, prepending the literal entry `DNS:None` (when not already in
the split list); that entry is among the items the diff-engine SAN loop
iterates, and it lands in the comma-joined value of the generated SAN
extension. -/
theorem c10_dns_none (p : Params) (s : String)
    (hcn : p.commonName = Option.none) (hs : p.subjectAltName = some s)
    (hne : s ≠ "") (hnotin : "DNS:None" ∉ pySplitComma (pyStripSpaces s)) :
    buildSan p = SanVal.listV ("DNS:None" :: pySplitComma (pyStripSpaces s))
    ∧ "DNS:None" ∈ sanItems (buildSan p)
    ∧ (mkCsr (buildSubject p) (buildSan p)).extensions
        = [("subjectAltName",
            String.intercalate "," ("DNS:None" :: pySplitComma (pyStripSpaces s)))] := by
  have happ : "DNS:" ++ "None" = "DNS:None" := by decide
  have hb : buildSan p = SanVal.listV ("DNS:None" :: pySplitComma (pyStripSpaces s)) := by
    simp [buildSan, hs, hne, hcn, pyFormat, happ, hnotin]
  refine ⟨hb, ?_, ?_⟩
  · rw [hb]
    exact List.mem_cons_self _ _
  · rw [hb]
    simp [mkCsr, sanTruthy, sanJoin]

/-- Witness for the C10 theorem at a concrete input. -/
theorem c10_dns_none_witness :
    "DNS:None" ∉ pySplitComma (pyStripSpaces "DNS:a.example.com")
    ∧ (buildSan { subjectAltName := some "DNS:a.example.com" }
        = SanVal.listV ("DNS:None" :: pySplitComma (pyStripSpaces "DNS:a.example.com"))
      ∧ "DNS:None" ∈ sanItems (buildSan { subjectAltName := some "DNS:a.example.com" })
      ∧ (mkCsr (buildSubject { subjectAltName := some "DNS:a.example.com" })
            (buildSan { subjectAltName := some "DNS:a.example.com" })).extensions
          = [("subjectAltName",
              String.intercalate ","
                ("DNS:None" :: pySplitComma (pyStripSpaces "DNS:a.example.com")))]) :=
  ⟨by decide,
   c10_dns_none { subjectAltName := some "DNS:a.example.com" } "DNS:a.example.com"
     rfl rfl (by decide) (by decide)⟩

end OpensslCsr

namespace OpensslCsr

/-- Witness for the C4 theorem at a concrete input: a shared key with
differing values is a mismatch. -/
theorem c4_subject_comparison_witness :
    subjectMismatch [("CN", "a")] [("CN", "b")] = true :=
  (c4_subject_comparison [("CN", "a")] [("CN", "b")]).mpr
    ⟨("CN", "a"), by decide, "b", by decide, by decide⟩

/-- Witness for the C5 amended theorem at a concrete input. -/
theorem c5_subject_entries_witness :
    ("CN", "x") ∈ buildSubject { commonName := some "x" } :=
  (c5_subject_entries { commonName := some "x" } "CN" "x").mpr (by decide)

end OpensslCsr
